import Mathlib

/-
  Verification of the Sphinx configuration module `doc/source/conf.py` of
  the Cosmic repository.

  The module is a flat sequence of Python statements: one import statement
  and a series of variable assignments whose right-hand sides are literals
  (strings, booleans, lists, one dictionary). We embed the module as a list
  of statements, give the loading semantics (executing the statements in
  order over an attribute namespace), and prove the claims about the
  resulting namespace.
-/

/-- A Python value occurring in the configuration module: a string,
boolean, list or dictionary literal, or a module object bound by
an import statement. -/
inductive Value where
  | str : String → Value
  | bool : Bool → Value
  | list : List Value → Value
  | dict : List (Value × Value) → Value
  | module : String → Value

/-- A top-level statement of the configuration module: an import statement
binding the given names, or an assignment of a value to a name. -/
inductive Stmt where
  | importNames : List String → Stmt
  | assign : String → Value → Stmt

/-- The statements of `doc/source/conf.py`, in source order. Comment lines
and blank lines are not statements and do not appear. The `u`-prefixed
string literals of the source denote the same strings as plain literals. -/
def confStatements : List Stmt := [
  .importNames ["sys", "os"],
  .assign "needs_sphinx" (.str "1.1.2"),
  .assign "extensions" (.list []),
  .assign "templates_path" (.list [.str "_templates"]),
  .assign "source_suffix" (.str ".rst"),
  .assign "source_encoding" (.str "utf-8-sig"),
  .assign "master_doc" (.str "index"),
  .assign "project" (.str "Cosmic"),
  .assign "copyright" (.str "2012, Ning"),
  .assign "version" (.str "0.0.1-SNAPSHOT"),
  .assign "release" (.str "0.0.1-SNAPSHOT"),
  .assign "exclude_trees" (.list [.str ".build"]),
  .assign "add_function_parentheses" (.bool true),
  .assign "pygments_style" (.str "trac"),
  .assign "master_doc" (.str "index"),
  .assign "html_theme" (.str "cosmic"),
  .assign "html_theme_path" (.list [.str "_theme"]),
  .assign "html_static_path" (.list [.str "_static"]),
  .assign "html_use_smartypants" (.bool true),
  .assign "html_use_index" (.bool true),
  .assign "htmlhelp_basename" (.str "cosmicdoc"),
  .assign "html_sidebars" (.dict [
    (.str "index", .list [.str "globaltoc.html", .str "relations.html",
      .str "sidebarintro.html", .str "searchbox.html"]),
    (.str "**", .list [.str "globaltoc.html", .str "relations.html",
      .str "sidebarintro.html", .str "searchbox.html"])])]

/-- The module namespace: attribute names bound to values, in insertion
order, as in a Python module dictionary. -/
abbrev Namespace := List (String × Value)

/-- Look an attribute up in a namespace. -/
def lookupAttr : Namespace → String → Option Value
  | [], _ => none
  | (k, v) :: rest, name => if k = name then some v else lookupAttr rest name

/-- Bind an attribute in a namespace: rebinding an existing name replaces
its value in place, a new name is appended, as in a Python module
dictionary. -/
def setAttr : Namespace → String → Value → Namespace
  | [], name, v => [(name, v)]
  | (k, w) :: rest, name, v =>
      if k = name then (k, v) :: rest else (k, w) :: setAttr rest name v

/-- Execute one statement over a namespace: an import binds each imported
name to the corresponding module object, an assignment binds the target
name to the value. -/
def execStmt (ns : Namespace) : Stmt → Namespace
  | .importNames names => names.foldl (fun ns n => setAttr ns n (.module n)) ns
  | .assign name v => setAttr ns name v

/-- Load a module: execute its statements in order, starting from the
empty namespace. -/
def loadModule (stmts : List Stmt) : Namespace :=
  stmts.foldl execStmt []

/-- The namespace of `conf.py` after loading. -/
def confNamespace : Namespace := loadModule confStatements

/-- The value of an attribute of the loaded configuration module. -/
def conf (name : String) : Option Value := lookupAttr confNamespace name

/-- A string value. -/
def isStr : Value → Bool
  | .str _ => true
  | _ => false

/-- A boolean value. -/
def isBool : Value → Bool
  | .bool _ => true
  | _ => false

/-- A list value all of whose elements are strings. -/
def isStringList : Value → Bool
  | .list elems => elems.all isStr
  | _ => false

/-- A literal of the kinds named by the spec: a string, boolean, list or
dictionary literal (lists and dictionaries built from such literals). -/
def isLiteral : Value → Bool
  | .str _ => true
  | .bool _ => true
  | .list [] => true
  | .list (x :: xs) => isLiteral x && isLiteral (.list xs)
  | .dict [] => true
  | .dict ((k, v) :: rest) => isLiteral k && isLiteral v && isLiteral (.dict rest)
  | .module _ => false

/-- A statement that is a variable assignment whose right-hand side is a
string, dictionary, boolean or list literal. -/
def isLiteralAssign : Stmt → Bool
  | .assign _ v => isLiteral v
  | _ => false

/-- An import statement. -/
def isImport : Stmt → Bool
  | .importNames _ => true
  | _ => false

/-- The targets of the assignment statements of the module, in source
order, with one entry per assignment. -/
def assignTargets : List String :=
  confStatements.foldr
    (fun s acc => match s with
      | .assign n _ => n :: acc
      | _ => acc) []

/-- The number of assignment statements whose target is the given name. -/
def assignCount (name : String) : Nat :=
  (assignTargets.filter (fun n => n == name)).length

/-- The values assigned to the given name, across all assignment
statements targeting it, in source order. -/
def assignedValues (name : String) : List Value :=
  confStatements.foldr
    (fun s acc => match s with
      | .assign n v => if n == name then v :: acc else acc
      | _ => acc) []

/-- Look a string key up in a list of dictionary entries. All keys of the
`html_sidebars` dictionary are string literals. -/
def lookupStrKey : List (Value × Value) → String → Option Value
  | [], _ => none
  | (Value.str s, v) :: rest, key =>
      if s = key then some v else lookupStrKey rest key
  | _ :: rest, key => lookupStrKey rest key

/-- Look a string key up in a dictionary value. -/
def dictLookup : Value → String → Option Value
  | .dict entries, key => lookupStrKey entries key
  | _, _ => none

/-- C1: after the configuration module is loaded, the attribute `project`
equals the string "Cosmic" and the attribute `version` equals the string
"0.0.1-SNAPSHOT". -/
theorem conf_project_version :
    conf "project" = some (.str "Cosmic") ∧
    conf "version" = some (.str "0.0.1-SNAPSHOT") :=
  ⟨rfl, rfl⟩

/-- C2, counterexample: the first statement of the configuration file is
the import statement `import sys, os`, which is not a variable assignment
with a literal right-hand side; hence not every statement of the file is
such an assignment. -/
theorem conf_stmt_zero_is_import_not_assign :
    confStatements.get? 0 = some (.importNames ["sys", "os"]) ∧
    isLiteralAssign (.importNames ["sys", "os"]) = false ∧
    confStatements.all isLiteralAssign = false :=
  ⟨rfl, rfl, rfl⟩

/-- C2, amended: apart from the single import statement `import sys, os`,
every statement of the configuration file is a variable assignment whose
right-hand side is a string, dictionary, boolean or list literal. -/
theorem conf_stmts_literal_assigns_except_import :
    (confStatements.filter (fun s => !(isImport s))).all isLiteralAssign = true ∧
    confStatements.filter isImport = [.importNames ["sys", "os"]] := by
  refine ⟨?_, ?_⟩ <;> simp [confStatements, isImport, isLiteralAssign, isLiteral]

/-- C3, counterexample: the attribute `master_doc` is an assignment target
of the module, yet it is assigned twice (lines 15 and 29 of the source),
not exactly once. -/
theorem master_doc_assigned_twice :
    assignTargets.contains "master_doc" = true ∧ assignCount "master_doc" ≠ 1 :=
  ⟨rfl, by decide⟩

/-- C3, amended: every configuration attribute other than `master_doc` is
assigned exactly once during loading and never reassigned; `master_doc`
alone is assigned twice, both times to the same string "index", so its
loaded value is "index". -/
theorem conf_attrs_assigned_once_except_master_doc :
    assignTargets.all (fun n => n == "master_doc" || assignCount n == 1) = true ∧
    assignCount "master_doc" = 2 ∧
    assignedValues "master_doc" = [.str "index", .str "index"] ∧
    conf "master_doc" = some (.str "index") :=
  ⟨rfl, rfl, rfl, rfl⟩

/-- C4: after loading, the attribute `extensions` is a list value all of
whose elements are strings, and the list is empty. -/
theorem conf_extensions_empty_string_list :
    conf "extensions" = some (.list []) ∧
    isStringList (.list []) = true :=
  ⟨rfl, rfl⟩

/-- C5: after loading, the attribute `html_sidebars` is a dictionary whose
every key is a string and whose every value is a list of strings. -/
theorem conf_html_sidebars_shape :
    ∃ entries, conf "html_sidebars" = some (.dict entries) ∧
      entries.all (fun p => isStr p.1 && isStringList p.2) = true :=
  ⟨[(.str "index", .list [.str "globaltoc.html", .str "relations.html",
      .str "sidebarintro.html", .str "searchbox.html"]),
    (.str "**", .list [.str "globaltoc.html", .str "relations.html",
      .str "sidebarintro.html", .str "searchbox.html"])], rfl, rfl⟩

/-- C6: after loading, the attributes `add_function_parentheses`,
`html_use_smartypants` and `html_use_index` each hold a boolean value. -/
theorem conf_boolean_attrs :
    (conf "add_function_parentheses").map isBool = some true ∧
    (conf "html_use_smartypants").map isBool = some true ∧
    (conf "html_use_index").map isBool = some true :=
  ⟨rfl, rfl, rfl⟩

/-- C7: after loading, the attributes `templates_path`, `html_static_path`
and `html_theme_path` are each a list value all of whose elements are
strings. -/
theorem conf_path_list_attrs :
    (conf "templates_path").map isStringList = some true ∧
    (conf "html_static_path").map isStringList = some true ∧
    (conf "html_theme_path").map isStringList = some true :=
  ⟨rfl, rfl, rfl⟩

/-- C8: after loading, the attributes `source_suffix`, `source_encoding`,
`master_doc`, `pygments_style`, `html_theme` and `htmlhelp_basename` each
hold a string value. -/
theorem conf_string_attrs :
    (conf "source_suffix").map isStr = some true ∧
    (conf "source_encoding").map isStr = some true ∧
    (conf "master_doc").map isStr = some true ∧
    (conf "pygments_style").map isStr = some true ∧
    (conf "html_theme").map isStr = some true ∧
    (conf "htmlhelp_basename").map isStr = some true :=
  ⟨rfl, rfl, rfl, rfl, rfl, rfl⟩

/-- C9: after loading, the entries of `html_sidebars` under the keys
"index" and "**" are equal ordered lists of the four sidebar-template
filenames "globaltoc.html", "relations.html", "sidebarintro.html",
"searchbox.html". -/
theorem conf_html_sidebars_entries_equal :
    ∃ v, conf "html_sidebars" = some v ∧
      dictLookup v "index" = dictLookup v "**" ∧
      dictLookup v "index" = some (.list [.str "globaltoc.html",
        .str "relations.html", .str "sidebarintro.html", .str "searchbox.html"]) :=
  ⟨.dict [(.str "index", .list [.str "globaltoc.html", .str "relations.html",
      .str "sidebarintro.html", .str "searchbox.html"]),
    (.str "**", .list [.str "globaltoc.html", .str "relations.html",
      .str "sidebarintro.html", .str "searchbox.html"])], rfl, rfl, rfl⟩

/-- C10: after loading, the module defines the attribute `needs_sphinx`
with the string value "1.1.2". -/
theorem conf_needs_sphinx :
    conf "needs_sphinx" = some (.str "1.1.2") :=
  rfl
